import Mathlib

/-!
# Verification of the user-privilege execution subsystem (arceos app-userprivilege)

Shallow embedding of the repository's four source files:

* `src/syscall.rs` — syscall number decoding and dispatch (`syscall_num`, `handle_syscall`);
* `src/task.rs`    — the user-task executor loop (`spawn_user_task`'s closure body);
* `src/loader.rs`  — payload loading (`load_user_app`, `load_file`);
* `src/main.rs`    — the spawn sequence (`main`).

External collaborators (axhal `UserContext`, axmm `AddrSpace`, axfs file store,
axtask spawn/exit/join) are not part of the repository; they are modelled from
the specification's collaborator contracts (spec §4.1, §4.3, §6).

Machine integers are modelled as `Nat` values, reduced mod `2^64` / `2^32`
exactly where the code truncates.
-/

/-- Page size constant `PAGE_SIZE_4K` from `axhal::mem`. -/
def PAGE_SIZE_4K : Nat := 4096

/-- Constant `USER_STACK_SIZE` from `main.rs` (64 KiB). -/
def USER_STACK_SIZE : Nat := 0x10000

/-- Constant `APP_ENTRY` from `main.rs`: the fixed load / entry address. -/
def APP_ENTRY : Nat := 0x1000

/-- Constant `SYS_EXIT` from `syscall.rs`. -/
def SYS_EXIT : Nat := 93

/-- Value of `usize::MAX` on a 64-bit target: the all-bits-set sentinel written for
unimplemented syscalls. -/
def USIZE_MAX : Nat := 2 ^ 64 - 1

/-- Rust `v as i32` for `v : usize` (64-bit): keep the low 32 bits and
reinterpret them as a signed 32-bit integer. -/
def usizeToI32 (v : Nat) : Int :=
  if v % 2 ^ 32 < 2 ^ 31 then ((v % 2 ^ 32 : Nat) : Int)
  else ((v % 2 ^ 32 : Nat) : Int) - 2 ^ 32

/-! ## Register files and user contexts, per architecture

Modelled from the spec (§4.3, §4.4) and the field accesses the repository
makes on axhal's `UserContext`: `uctx.regs.a7` (riscv64/riscv32),
`uctx.x[8]` (aarch64), `uctx.rax` (x86_64), `uctx.regs.a7` (loongarch64),
plus `uctx.arg0()` (first argument register) and `uctx.set_retval(..)`
(return-value register). -/

/-- riscv general-purpose registers (x1..x31) as saved by axhal. -/
structure GeneralRegisters where
  ra : Nat
  sp : Nat
  gp : Nat
  tp : Nat
  t0 : Nat
  t1 : Nat
  t2 : Nat
  s0 : Nat
  s1 : Nat
  a0 : Nat
  a1 : Nat
  a2 : Nat
  a3 : Nat
  a4 : Nat
  a5 : Nat
  a6 : Nat
  a7 : Nat
  s2 : Nat
  s3 : Nat
  s4 : Nat
  s5 : Nat
  s6 : Nat
  s7 : Nat
  s8 : Nat
  s9 : Nat
  s10 : Nat
  s11 : Nat
  t3 : Nat
  t4 : Nat
  t5 : Nat
  t6 : Nat
  deriving DecidableEq, Repr

/-- The all-zero riscv register file. -/
def GeneralRegisters.zero : GeneralRegisters :=
  ⟨0, 0, 0, 0, 0, 0, 0, 0, 0, 0, 0, 0, 0, 0, 0, 0, 0, 0, 0, 0, 0, 0, 0, 0, 0,
   0, 0, 0, 0, 0, 0⟩

/-- axhal `UserContext`, riscv64 build: saved general registers, the user
program counter (`sepc`) and the saved status register. The executor-loop and
dispatcher theorems are stated over this (default-architecture) build; the
per-architecture decoding claim is settled separately over all four context
layouts. -/
structure UserContext where
  regs : GeneralRegisters
  sepc : Nat
  sstatus : Nat
  deriving DecidableEq, Repr

/-- Modelled from the spec (§4.3): `UserContext::new(entry, stackTop, arg0)`
sets program counter = entry, stack pointer = stackTop, first argument
register = arg0, all other registers zeroed. -/
def UserContext.new (entry sp arg0 : Nat) : UserContext :=
  { regs := { GeneralRegisters.zero with sp := sp, a0 := arg0 }
    sepc := entry
    sstatus := 0 }

/-- Modelled from the spec (§4.4): the first-argument register of the riscv
calling convention (`uctx.arg0()` in axhal) is `a0`. -/
def UserContext.arg0 (uctx : UserContext) : Nat := uctx.regs.a0

/-- Modelled from the spec (§4.4): `uctx.set_retval(v)` writes the
return-value register, `a0` on riscv. -/
def UserContext.set_retval (uctx : UserContext) (v : Nat) : UserContext :=
  { uctx with regs := { uctx.regs with a0 := v } }

/-- Function `syscall_num` from `syscall.rs`, riscv64/riscv32 build: the syscall number
is read from `uctx.regs.a7`. -/
def syscall_num (uctx : UserContext) : Nat := uctx.regs.a7

/-- axhal `UserContext`, aarch64 build: 31 general registers `x[0..30]` plus
stack pointer, exception link register and saved program status. -/
structure UserContextAarch64 where
  x : Fin 31 → Nat
  sp : Nat
  elr : Nat
  spsr : Nat

/-- Function `syscall_num` from `syscall.rs`, aarch64 build: reads `uctx.x[8]`. -/
def syscall_num_aarch64 (uctx : UserContextAarch64) : Nat := uctx.x 8

/-- axhal `UserContext`, x86_64 build: named general registers plus
instruction pointer and flags. -/
structure UserContextX86 where
  rax : Nat
  rbx : Nat
  rcx : Nat
  rdx : Nat
  rsi : Nat
  rdi : Nat
  rbp : Nat
  rsp : Nat
  r8 : Nat
  r9 : Nat
  r10 : Nat
  r11 : Nat
  r12 : Nat
  r13 : Nat
  r14 : Nat
  r15 : Nat
  rip : Nat
  rflags : Nat
  deriving DecidableEq, Repr

/-- Function `syscall_num` from `syscall.rs`, x86_64 build: reads `uctx.rax`. -/
def syscall_num_x86_64 (uctx : UserContextX86) : Nat := uctx.rax

/-- loongarch64 general-purpose registers as saved by axhal. -/
structure LoongGeneralRegisters where
  ra : Nat
  tp : Nat
  sp : Nat
  a0 : Nat
  a1 : Nat
  a2 : Nat
  a3 : Nat
  a4 : Nat
  a5 : Nat
  a6 : Nat
  a7 : Nat
  t0 : Nat
  t1 : Nat
  t2 : Nat
  t3 : Nat
  t4 : Nat
  t5 : Nat
  t6 : Nat
  t7 : Nat
  t8 : Nat
  fp : Nat
  s0 : Nat
  s1 : Nat
  s2 : Nat
  s3 : Nat
  s4 : Nat
  s5 : Nat
  s6 : Nat
  s7 : Nat
  s8 : Nat
  deriving DecidableEq, Repr

/-- axhal `UserContext`, loongarch64 build. -/
structure UserContextLoong where
  regs : LoongGeneralRegisters
  era : Nat
  prmd : Nat
  deriving DecidableEq, Repr

/-- Function `syscall_num` from `syscall.rs`, loongarch64 build: reads `uctx.regs.a7`. -/
def syscall_num_loongarch64 (uctx : UserContextLoong) : Nat := uctx.regs.a7

/-! ## Syscall dispatch (`handle_syscall`, `syscall.rs`) -/

/-- Function `handle_syscall` from `syscall.rs`: decode the number; on `SYS_EXIT`
return `Some(arg0 as i32)` (process exits), otherwise write the `usize::MAX`
sentinel into the return-value register and return `None` (keep running).
The returned pair is (possibly mutated context, dispatch result). -/
def handle_syscall (uctx : UserContext) : UserContext × Option Int :=
  let num := syscall_num uctx
  if num = SYS_EXIT then
    let exit_code := usizeToI32 uctx.arg0
    (uctx, some exit_code)
  else
    (uctx.set_retval USIZE_MAX, none)

/-! ## The executor loop (`spawn_user_task`, `task.rs`) -/

/-- axhal `ReturnReason`: why control returned from user mode (spec §3,
`TrapOutcome`). The repository's loop matches `Syscall`,
`PageFault(vaddr, flags)` and a wildcard arm; every remaining axhal variant is
collapsed into `Other`. -/
inductive ReturnReason where
  | Syscall : ReturnReason
  | PageFault (vaddr : Nat) (flags : Nat) : ReturnReason
  | Other (desc : Nat) : ReturnReason
  deriving DecidableEq, Repr

/-- One entry into user mode (`uctx.run()`): the user program transforms the
saved register state and yields a trap classification. The user program's
behaviour is external, so each entry is an arbitrary function of the context
at entry time. -/
def UserStep : Type := UserContext → UserContext × ReturnReason

/-- The executor loop body from `task.rs`, driven by a finite trace of user
steps (one per `uctx.run()` call). `some code` means the task called
`axtask::exit(code)`; `none` means the trace was exhausted with the process
still runnable. On `Syscall` the dispatcher may mutate the context (syscall
return value) before user mode is re-entered; on `PageFault` or any other
trap the task exits with `-1`. -/
def userTaskLoop : List UserStep → UserContext → Option Int
  | [], _ => none
  | step :: rest, uctx =>
    let out := step uctx
    match out.2 with
    | ReturnReason.Syscall =>
      let handled := handle_syscall out.1
      match handled.2 with
      | some exit_code => some exit_code
      | none => userTaskLoop rest handled.1
    | ReturnReason.PageFault _ _ => some (-1)
    | ReturnReason.Other _ => some (-1)

/-- Composition of `spawn_user_task` and `join` (`task.rs` and `main.rs:80-83`):
the task body builds `UserContext::new(entry, sp, 0)` and runs the executor
loop; modelled from the spec (§6), `wait`/`join` on the task handle returns
the exit status the unit passed to `axtask::exit`. -/
def taskJoin (steps : List UserStep) (entry sp : Nat) : Option Int :=
  userTaskLoop steps (UserContext.new entry sp 0)

/-! ## Address spaces and the payload loader (`loader.rs`, spec §4.1) -/

/-- Mapping permission flags (`axhal::paging::MappingFlags`). -/
structure MappingFlags where
  read : Bool
  write : Bool
  execute : Bool
  user : Bool
  deriving DecidableEq, Repr

/-- Flags `READ | WRITE | EXECUTE | USER`, used for the code page. -/
def MappingFlags.rwxu : MappingFlags := ⟨true, true, true, true⟩

/-- Flags `READ | WRITE | USER`, used for the user stack. -/
def MappingFlags.rwu : MappingFlags := ⟨true, true, false, true⟩

/-- One mapped region of an address space: virtual range
`[vaddr, vaddr + size)`, permissions, and the bytes of its physical backing. -/
structure MemRegion where
  vaddr : Nat
  size : Nat
  flags : MappingFlags
  backing : List Nat
  deriving DecidableEq, Repr

/-- Modelled from the spec (§3, §4.1): an `AddrSpace` is a virtual range
`[base, base + size)` together with its mapped regions. -/
structure AddrSpace where
  base : Nat
  size : Nat
  regions : List MemRegion
  deriving DecidableEq, Repr

/-- Accessor `uspace.end()`: one past the last address of the space's virtual range. -/
def AddrSpace.vaEnd (us : AddrSpace) : Nat := us.base + us.size

/-- Does region `r` overlap the virtual interval `[v, v + s)`? -/
def MemRegion.overlapsB (r : MemRegion) (v s : Nat) : Bool :=
  decide (r.vaddr < v + s) && decide (v < r.vaddr + r.size)

/-- Does region `r` contain the single address `addr`? -/
def MemRegion.containsB (r : MemRegion) (addr : Nat) : Bool :=
  decide (r.vaddr ≤ addr) && decide (addr < r.vaddr + r.size)

/-- Modelled from the spec (§4.1): `map(space, vaddr, size, permissions,
backing)` installs one region; it fails if the region overlaps an existing
one, if `size` is not a multiple of the page granularity, or if no physical
backing can be allocated (`allocOk` is the external allocator's verdict).
A failed map leaves no partial region. -/
def AddrSpace.mapRegion (us : AddrSpace) (vaddr size : Nat)
    (flags : MappingFlags) (backing : List Nat) (allocOk : Bool) :
    Option AddrSpace :=
  if !allocOk then none
  else if size % PAGE_SIZE_4K ≠ 0 then none
  else if us.regions.any (fun r => r.overlapsB vaddr size) then none
  else some { us with regions := us.regions ++ [⟨vaddr, size, flags, backing⟩] }

/-- Overwrite the bytes of region `r` starting at absolute virtual address
`addr` (inside `r`) with `bytes`: the effect of `copy_nonoverlapping` into
the region's physical backing. -/
def MemRegion.writeAt (r : MemRegion) (addr : Nat) (bytes : List Nat) :
    MemRegion :=
  let off := addr - r.vaddr
  { r with backing :=
      r.backing.take off ++ bytes ++ r.backing.drop (off + bytes.length) }

/-- Modelled from the spec (§4.1, §4.2 steps 4-5): resolve `addr` through the
page table (`uspace.page_table().query(..)`) and copy `bytes` into the
physical backing found there — i.e. into every mapped region containing
`addr` (exactly one when mappings do not overlap). -/
def AddrSpace.writePhysAt (us : AddrSpace) (addr : Nat) (bytes : List Nat) :
    AddrSpace :=
  { us with regions :=
      us.regions.map (fun r => if r.containsB addr then r.writeAt addr bytes else r) }

/-- axio error values the loader uses (`axio::Error`); read failures surface
as the file store's I/O error class (spec §6). -/
inductive AxError where
  | NotFound : AxError
  | NoMemory : AxError
  | IoFailed : AxError
  deriving DecidableEq, Repr

/-- Modelled from the spec (§6): the external file store. `none` as the open
result means the path cannot be opened; `readFails` means the single `read`
call fails with an I/O error; otherwise `read` fills the buffer with the
file's bytes. -/
structure FileModel where
  contents : List Nat
  readFails : Bool
  deriving DecidableEq, Repr

/-- Function `load_file` from `loader.rs`: open the path (mapping failure to
`NotFound`), then read into `buf`; returns the number of bytes read and the
updated buffer. -/
def load_file (file : Option FileModel) (buf : List Nat) :
    Except AxError (Nat × List Nat) :=
  match file with
  | none => Except.error AxError.NotFound
  | some f =>
    if f.readFails then Except.error AxError.IoFailed
    else
      let n := min f.contents.length buf.length
      Except.ok (n, f.contents.take n ++ buf.drop n)

/-- Function `load_user_app` from `loader.rs`: stage up to one page of the file into a
zeroed buffer; allocate one zero-initialized shared page (`SharedPages::new`,
failure mapped to `NoMemory`, verdict `pagesOk`); map it at `APP_ENTRY` with
`READ|WRITE|EXECUTE|USER` (failure mapped to `NoMemory`, allocator verdict
`mapOk`); resolve the mapping and copy the whole staged page into its
physical backing. -/
def load_user_app (file : Option FileModel) (pagesOk mapOk : Bool)
    (uspace : AddrSpace) : Except AxError AddrSpace :=
  let buf0 : List Nat := List.replicate PAGE_SIZE_4K 0
  match load_file file buf0 with
  | Except.error e => Except.error e
  | Except.ok nbuf =>
    if !pagesOk then Except.error AxError.NoMemory
    else
      match uspace.mapRegion APP_ENTRY PAGE_SIZE_4K MappingFlags.rwxu
          (List.replicate PAGE_SIZE_4K 0) mapOk with
      | none => Except.error AxError.NoMemory
      | some uspace2 => Except.ok (uspace2.writePhysAt APP_ENTRY nbuf.2)

/-! ## The spawn sequence (`main.rs`) -/

/-- Verdicts of the external allocator/mapper for each fallible step of
`main`'s spawn sequence, plus the file-store state for the payload. -/
structure SpawnOracle where
  newEmptyOk : Bool
  copyMappingsOk : Bool
  file : Option FileModel
  codePagesOk : Bool
  codeMapOk : Bool
  stackPagesOk : Bool
  stackMapOk : Bool
  deriving DecidableEq, Repr

/-- The `unwrap`/`panic!` sites of `main.rs`'s spawn sequence, each carrying
the error that fired it. -/
inductive PanicCause where
  | newEmptyFailed : PanicCause
  | copyMappingsFailed : PanicCause
  | loadFailed (e : AxError) : PanicCause
  | stackPagesFailed : PanicCause
  | stackMapFailed : PanicCause
  deriving DecidableEq, Repr

/-- Outcome of `main.rs` lines 44-80: either some step failed and the kernel
panicked (`unwrap`/`panic!`), or `spawn_user_task` was reached with the final
address space and the initial user context. -/
inductive SpawnOutcome where
  | panicked (c : PanicCause) : SpawnOutcome
  | spawned (uspace : AddrSpace) (uctx : UserContext) : SpawnOutcome
  deriving DecidableEq, Repr

/-- The spawn sequence of `main.rs` (lines 44-80): create the empty user
address space `[0, 0x40_0000_0000)`, copy the kernel mappings
(`kernelRegions`, contents delegated to axmm), load the payload at
`APP_ENTRY`, map a `USER_STACK_SIZE` stack ending at `uspace.end()` with
`READ|WRITE|USER` backed by zeroed pages, then hand
`UserContext::new(APP_ENTRY, ustack_top, 0)` to the spawned task.
Every `unwrap`/`panic!` becomes a `panicked` outcome. -/
def spawnSequence (o : SpawnOracle) (kernelRegions : List MemRegion) :
    SpawnOutcome :=
  if !o.newEmptyOk then SpawnOutcome.panicked PanicCause.newEmptyFailed
  else
    let uspace0 : AddrSpace := ⟨0, 0x4000000000, []⟩
    if !o.copyMappingsOk then SpawnOutcome.panicked PanicCause.copyMappingsFailed
    else
      let uspace1 := { uspace0 with regions := kernelRegions }
      match load_user_app o.file o.codePagesOk o.codeMapOk uspace1 with
      | Except.error e => SpawnOutcome.panicked (PanicCause.loadFailed e)
      | Except.ok uspace2 =>
        let ustack_top := uspace2.vaEnd
        let ustack_vaddr := ustack_top - USER_STACK_SIZE
        if !o.stackPagesOk then SpawnOutcome.panicked PanicCause.stackPagesFailed
        else
          match uspace2.mapRegion ustack_vaddr USER_STACK_SIZE MappingFlags.rwu
              (List.replicate USER_STACK_SIZE 0) o.stackMapOk with
          | none => SpawnOutcome.panicked PanicCause.stackMapFailed
          | some uspace3 =>
            SpawnOutcome.spawned uspace3 (UserContext.new APP_ENTRY ustack_top 0)

/-- Concrete-context fixture: a user context whose syscall-number register
holds `num` and whose first argument register holds `arg`, all other state
zero. -/
def mkSyscallCtx (num arg : Nat) : UserContext :=
  { regs := { GeneralRegisters.zero with a0 := arg, a7 := num }
    sepc := 0
    sstatus := 0 }

/-! ## Helper lemmas -/

/-- Two's-complement encoding of an in-range signed 32-bit value into a
64-bit register round-trips through Rust's `as i32` truncation. -/
theorem usizeToI32_encode (code : Int) (h1 : -(2 ^ 31) ≤ code)
    (h2 : code < 2 ^ 31) :
    usizeToI32 ((code % (2 ^ 64 : Int)).toNat) = code := by
  unfold usizeToI32
  split <;> omega

/-- A register whose low 32 bits are all set truncates to the signed value
`-1`. -/
theorem usizeToI32_allones (v : Nat) (h : v % 2 ^ 32 = 2 ^ 32 - 1) :
    usizeToI32 v = -1 := by
  unfold usizeToI32
  split <;> omega

/-- The executor loop on a trace beginning with a syscall that decodes to
`SYS_EXIT` exits with the truncated first argument. -/
theorem userTaskLoop_exit (step : UserStep) (rest : List UserStep)
    (uctx : UserContext)
    (hreason : (step uctx).2 = ReturnReason.Syscall)
    (hnum : syscall_num (step uctx).1 = SYS_EXIT) :
    userTaskLoop (step :: rest) uctx =
      some (usizeToI32 ((step uctx).1.arg0)) := by
  simp only [userTaskLoop, hreason, handle_syscall, hnum, if_pos]

/-- The executor loop on a trace beginning with a syscall that does not
decode to `SYS_EXIT` writes the sentinel and continues with the rest of the
trace. -/
theorem userTaskLoop_unknown (step : UserStep) (rest : List UserStep)
    (uctx : UserContext)
    (hreason : (step uctx).2 = ReturnReason.Syscall)
    (hnum : syscall_num (step uctx).1 ≠ SYS_EXIT) :
    userTaskLoop (step :: rest) uctx =
      userTaskLoop rest ((step uctx).1.set_retval USIZE_MAX) := by
  simp only [userTaskLoop, hreason, handle_syscall, hnum, if_neg]
  simp

/-! ## Claim theorems -/

/-- C1: if the user program invokes the EXIT system call (number 93) with the
two's-complement encoding of the signed integer `code` in the first argument
register, the executor loop terminates the unit of execution with that
status, and the handle's `join` returns exactly `code`. -/
theorem exit_syscall_join_returns_code (code : Int)
    (h1 : -(2 ^ 31) ≤ code) (h2 : code < 2 ^ 31)
    (step : UserStep) (rest : List UserStep) (entry sp : Nat)
    (hreason : (step (UserContext.new entry sp 0)).2 = ReturnReason.Syscall)
    (hnum : syscall_num (step (UserContext.new entry sp 0)).1 = SYS_EXIT)
    (harg : ((step (UserContext.new entry sp 0)).1).arg0
      = (code % (2 ^ 64 : Int)).toNat) :
    taskJoin (step :: rest) entry sp = some code := by
  unfold taskJoin
  rw [userTaskLoop_exit step rest _ hreason hnum, harg,
    usizeToI32_encode code h1 h2]

/-- Witness for C1 at a concrete input: a user step that requests
`EXIT(-7)` (argument register holding the 64-bit two's complement of `-7`)
makes `join` return `-7`. -/
theorem exit_syscall_join_returns_code_witness :
    taskJoin
      [fun c => ({ c with regs := { c.regs with a7 := 93, a0 := 2 ^ 64 - 7 } },
        ReturnReason.Syscall)] 0x1000 0x4000000000 = some (-7) :=
  exit_syscall_join_returns_code (-7) (by decide) (by decide)
    (fun c => ({ c with regs := { c.regs with a7 := 93, a0 := 2 ^ 64 - 7 } },
      ReturnReason.Syscall))
    [] 0x1000 0x4000000000 rfl rfl (by decide)

/-- C3: for every syscall number other than EXIT (93), the dispatcher writes
the all-bits-set sentinel into the return-value register and returns `None`,
so the executor loop re-enters user mode: the process stays runnable (the
loop continues with the rest of the trace) and the next entry into user mode
observes the sentinel in the return-value register. -/
theorem unknown_syscall_stays_runnable (step : UserStep)
    (rest : List UserStep) (uctx : UserContext)
    (hreason : (step uctx).2 = ReturnReason.Syscall)
    (hnum : syscall_num (step uctx).1 ≠ SYS_EXIT) :
    handle_syscall (step uctx).1 = ((step uctx).1.set_retval USIZE_MAX, none) ∧
    ((step uctx).1.set_retval USIZE_MAX).regs.a0 = USIZE_MAX ∧
    userTaskLoop (step :: rest) uctx =
      userTaskLoop rest ((step uctx).1.set_retval USIZE_MAX) := by
  refine ⟨?_, rfl, userTaskLoop_unknown step rest uctx hreason hnum⟩
  simp only [handle_syscall, hnum, if_neg]
  simp

/-- Witness for C3 at a concrete input: a user step issuing syscall number
94 leaves the process runnable with the sentinel in `a0`. -/
theorem unknown_syscall_stays_runnable_witness :
    handle_syscall (mkSyscallCtx 94 0) =
      ((mkSyscallCtx 94 0).set_retval USIZE_MAX, none) ∧
    ((mkSyscallCtx 94 0).set_retval USIZE_MAX).regs.a0 = USIZE_MAX ∧
    userTaskLoop [fun _ => (mkSyscallCtx 94 0, ReturnReason.Syscall)]
        (UserContext.new 0x1000 0x4000000000 0) =
      userTaskLoop [] ((mkSyscallCtx 94 0).set_retval USIZE_MAX) :=
  unknown_syscall_stays_runnable
    (fun _ => (mkSyscallCtx 94 0, ReturnReason.Syscall)) []
    (UserContext.new 0x1000 0x4000000000 0) rfl (by decide)

/-- C4: a page fault returned by `run` — at any faulting address and with any
access flags — makes the executor loop terminate the unit of execution with
the failure exit status `-1`, regardless of the remaining trace (no recovery,
no re-entry into user mode); any other non-syscall trap classification
likewise terminates with `-1`. -/
theorem page_fault_terminates (pfstep otstep : UserStep)
    (rest1 rest2 : List UserStep) (u1 u2 : UserContext)
    (vaddr flags d : Nat)
    (hpf : (pfstep u1).2 = ReturnReason.PageFault vaddr flags)
    (hot : (otstep u2).2 = ReturnReason.Other d) :
    userTaskLoop (pfstep :: rest1) u1 = some (-1) ∧
    userTaskLoop (otstep :: rest2) u2 = some (-1) := by
  constructor <;> simp only [userTaskLoop, hpf, hot]

/-- Witness for C4 at a concrete input: a fault at address `0x9999` with
flags `3`, and an unknown trap, both yield exit status `-1`. -/
theorem page_fault_terminates_witness :
    userTaskLoop [fun c => (c, ReturnReason.PageFault 0x9999 3)]
      (UserContext.new 0x1000 0x4000000000 0) = some (-1) ∧
    userTaskLoop [fun c => (c, ReturnReason.Other 7)]
      (UserContext.new 0x1000 0x4000000000 0) = some (-1) :=
  page_fault_terminates (fun c => (c, ReturnReason.PageFault 0x9999 3))
    (fun c => (c, ReturnReason.Other 7)) [] []
    (UserContext.new 0x1000 0x4000000000 0)
    (UserContext.new 0x1000 0x4000000000 0) 0x9999 3 7 rfl rfl

/-- C9: the exit status delivered on EXIT is the low 32 bits of the first
argument register reinterpreted as a signed 32-bit integer: for any register
value `v` the executor terminates with `usizeToI32 v`, which depends only on
`v mod 2^32`, equals that residue when its top bit is clear, equals
`residue - 2^32` (a negative value) when the top bit is set, and discards
the high bits of `v`. -/
theorem exit_status_truncates_to_i32 (v : Nat) (rest : List UserStep)
    (uctx : UserContext)
    (h7 : uctx.regs.a7 = SYS_EXIT) (h0 : uctx.regs.a0 = v) :
    (handle_syscall uctx).2 = some (usizeToI32 v) ∧
    userTaskLoop ((fun _ => (uctx, ReturnReason.Syscall)) :: rest)
      (UserContext.new APP_ENTRY 0x4000000000 0) = some (usizeToI32 v) ∧
    usizeToI32 v = usizeToI32 (v % 2 ^ 32) ∧
    (v % 2 ^ 32 < 2 ^ 31 → usizeToI32 v = ((v % 2 ^ 32 : Nat) : Int)) ∧
    (2 ^ 31 ≤ v % 2 ^ 32 →
      usizeToI32 v = ((v % 2 ^ 32 : Nat) : Int) - 2 ^ 32) ∧
    (2 ^ 31 ≤ v % 2 ^ 32 → usizeToI32 v < 0) := by
  have hnum : syscall_num uctx = SYS_EXIT := h7
  have harg : uctx.arg0 = v := h0
  refine ⟨?_, ?_, ?_, ?_, ?_, ?_⟩
  · simp only [handle_syscall, hnum, if_pos, harg]
  · rw [userTaskLoop_exit _ rest _ rfl hnum]
    simp only [UserContext.arg0, h0]
  · unfold usizeToI32
    have : v % 2 ^ 32 % 2 ^ 32 = v % 2 ^ 32 := Nat.mod_mod_of_dvd v dvd_rfl
    omega
  · intro h
    unfold usizeToI32
    omega
  · intro h
    unfold usizeToI32
    omega
  · intro h
    unfold usizeToI32
    split <;> omega

/-- Witness for C9 at a concrete input: `EXIT` with argument
`2^63 + 2^31` (top bit of the low 32 bits set, high bits nonzero) yields
exit status `-2^31`. -/
theorem exit_status_truncates_to_i32_witness :
    (handle_syscall (mkSyscallCtx 93 (2 ^ 63 + 2 ^ 31))).2 =
      some (usizeToI32 (2 ^ 63 + 2 ^ 31)) ∧
    usizeToI32 (2 ^ 63 + 2 ^ 31) = -(2 ^ 31) :=
  ⟨(exit_status_truncates_to_i32 (2 ^ 63 + 2 ^ 31) []
      (mkSyscallCtx 93 (2 ^ 63 + 2 ^ 31)) rfl rfl).1,
   by decide⟩

/-- C10: the failure exit status is `-1` both for page faults and for any
other non-syscall trap — the two fault classes are indistinguishable by exit
status — and a process that voluntarily invokes `EXIT(-1)` (all-ones low 32
bits in the argument register) terminates with the identical status `-1`. -/
theorem fault_status_indistinguishable (pfstep otstep exstep : UserStep)
    (r1 r2 r3 : List UserStep) (u1 u2 u3 : UserContext)
    (vaddr flags d : Nat)
    (hpf : (pfstep u1).2 = ReturnReason.PageFault vaddr flags)
    (hot : (otstep u2).2 = ReturnReason.Other d)
    (hex : (exstep u3).2 = ReturnReason.Syscall)
    (hnum : ((exstep u3).1).regs.a7 = SYS_EXIT)
    (harg : ((exstep u3).1).regs.a0 % 2 ^ 32 = 2 ^ 32 - 1) :
    userTaskLoop (pfstep :: r1) u1 = some (-1) ∧
    userTaskLoop (otstep :: r2) u2 = some (-1) ∧
    userTaskLoop (exstep :: r3) u3 = some (-1) := by
  refine ⟨?_, ?_, ?_⟩
  · simp only [userTaskLoop, hpf]
  · simp only [userTaskLoop, hot]
  · rw [userTaskLoop_exit _ r3 _ hex hnum]
    simp only [UserContext.arg0]
    rw [usizeToI32_allones _ harg]

/-- Witness for C10 at a concrete input: a page fault at `0x9999`, an
unknown trap, and `EXIT` with an all-ones argument register all terminate
with the same status `-1`. -/
theorem fault_status_indistinguishable_witness :
    userTaskLoop [fun c => (c, ReturnReason.PageFault 0x9999 3)]
      (UserContext.new 0x1000 0x4000000000 0) = some (-1) ∧
    userTaskLoop [fun c => (c, ReturnReason.Other 7)]
      (UserContext.new 0x1000 0x4000000000 0) = some (-1) ∧
    userTaskLoop [fun _ => (mkSyscallCtx 93 (2 ^ 64 - 1), ReturnReason.Syscall)]
      (UserContext.new 0x1000 0x4000000000 0) = some (-1) :=
  fault_status_indistinguishable
    (fun c => (c, ReturnReason.PageFault 0x9999 3))
    (fun c => (c, ReturnReason.Other 7))
    (fun _ => (mkSyscallCtx 93 (2 ^ 64 - 1), ReturnReason.Syscall))
    [] [] []
    (UserContext.new 0x1000 0x4000000000 0)
    (UserContext.new 0x1000 0x4000000000 0)
    (UserContext.new 0x1000 0x4000000000 0)
    0x9999 3 7 rfl rfl rfl rfl (by decide)

/-- C6: on every supported architecture the syscall number is decoded from
exactly the register mandated by that architecture's calling convention —
`a7` on riscv (riscv64/riscv32 share the code path), `x[8]` on aarch64,
`rax` on x86_64, `a7` on loongarch64 — and the decoded number is independent
of every other register: two contexts agreeing on that one register decode
to the same number. -/
theorem syscall_number_register_per_arch
    (u1 u2 : UserContext) (hrv : u1.regs.a7 = u2.regs.a7)
    (v1 v2 : UserContextAarch64) (ha : v1.x 8 = v2.x 8)
    (w1 w2 : UserContextX86) (hx : w1.rax = w2.rax)
    (l1 l2 : UserContextLoong) (hl : l1.regs.a7 = l2.regs.a7) :
    (syscall_num u1 = u1.regs.a7 ∧ syscall_num u1 = syscall_num u2) ∧
    (syscall_num_aarch64 v1 = v1.x 8 ∧
      syscall_num_aarch64 v1 = syscall_num_aarch64 v2) ∧
    (syscall_num_x86_64 w1 = w1.rax ∧
      syscall_num_x86_64 w1 = syscall_num_x86_64 w2) ∧
    (syscall_num_loongarch64 l1 = l1.regs.a7 ∧
      syscall_num_loongarch64 l1 = syscall_num_loongarch64 l2) :=
  ⟨⟨rfl, hrv⟩, ⟨rfl, ha⟩, ⟨rfl, hx⟩, ⟨rfl, hl⟩⟩

/-- Witness for C6 at concrete inputs: pairs of contexts agreeing only on
the mandated register (and differing in other registers) decode to the same
number on each architecture. -/
theorem syscall_number_register_per_arch_witness :
    (syscall_num (mkSyscallCtx 93 0) = (mkSyscallCtx 93 0).regs.a7 ∧
      syscall_num (mkSyscallCtx 93 0) = syscall_num (mkSyscallCtx 93 42)) ∧
    (syscall_num_aarch64 ⟨fun i => if i.val = 8 then 93 else 0, 0, 0, 0⟩ =
        (⟨fun i => if i.val = 8 then 93 else 0, 0, 0, 0⟩ :
          UserContextAarch64).x 8 ∧
      syscall_num_aarch64 ⟨fun i => if i.val = 8 then 93 else 0, 0, 0, 0⟩ =
        syscall_num_aarch64 ⟨fun i => if i.val = 8 then 93 else 7, 5, 0, 0⟩) ∧
    (syscall_num_x86_64 ⟨93, 0, 0, 0, 0, 0, 0, 0, 0, 0, 0, 0, 0, 0, 0, 0, 0, 0⟩ =
        (⟨93, 0, 0, 0, 0, 0, 0, 0, 0, 0, 0, 0, 0, 0, 0, 0, 0, 0⟩ :
          UserContextX86).rax ∧
      syscall_num_x86_64 ⟨93, 0, 0, 0, 0, 0, 0, 0, 0, 0, 0, 0, 0, 0, 0, 0, 0, 0⟩ =
        syscall_num_x86_64 ⟨93, 1, 2, 3, 4, 5, 6, 7, 8, 9, 10, 11, 12, 13, 14, 15, 16, 17⟩) ∧
    (syscall_num_loongarch64
        ⟨⟨0, 0, 0, 0, 0, 0, 0, 0, 0, 0, 93, 0, 0, 0, 0, 0, 0, 0, 0, 0, 0, 0,
          0, 0, 0, 0, 0, 0, 0, 0⟩, 0, 0⟩ =
        (⟨⟨0, 0, 0, 0, 0, 0, 0, 0, 0, 0, 93, 0, 0, 0, 0, 0, 0, 0, 0, 0, 0, 0,
          0, 0, 0, 0, 0, 0, 0, 0⟩, 0, 0⟩ : UserContextLoong).regs.a7 ∧
      syscall_num_loongarch64
        ⟨⟨0, 0, 0, 0, 0, 0, 0, 0, 0, 0, 93, 0, 0, 0, 0, 0, 0, 0, 0, 0, 0, 0,
          0, 0, 0, 0, 0, 0, 0, 0⟩, 0, 0⟩ =
        syscall_num_loongarch64
        ⟨⟨1, 2, 3, 4, 5, 6, 7, 8, 9, 10, 93, 11, 12, 13, 14, 15, 16, 17, 18,
          19, 20, 21, 22, 23, 24, 25, 26, 27, 28, 29⟩, 0, 0⟩) :=
  syscall_number_register_per_arch
    (mkSyscallCtx 93 0) (mkSyscallCtx 93 42) rfl
    ⟨fun i => if i.val = 8 then 93 else 0, 0, 0, 0⟩
    ⟨fun i => if i.val = 8 then 93 else 7, 5, 0, 0⟩ rfl
    ⟨93, 0, 0, 0, 0, 0, 0, 0, 0, 0, 0, 0, 0, 0, 0, 0, 0, 0⟩
    ⟨93, 1, 2, 3, 4, 5, 6, 7, 8, 9, 10, 11, 12, 13, 14, 15, 16, 17⟩ rfl
    ⟨⟨0, 0, 0, 0, 0, 0, 0, 0, 0, 0, 93, 0, 0, 0, 0, 0, 0, 0, 0, 0, 0, 0, 0,
      0, 0, 0, 0, 0, 0, 0⟩, 0, 0⟩
    ⟨⟨1, 2, 3, 4, 5, 6, 7, 8, 9, 10, 93, 11, 12, 13, 14, 15, 16, 17, 18, 19,
      20, 21, 22, 23, 24, 25, 26, 27, 28, 29⟩, 0, 0⟩ rfl

/-- Mapping a function that fixes every member of a list is the identity. -/
theorem map_id_of_mem {α : Type} (l : List α) (f : α → α)
    (h : ∀ x ∈ l, f x = x) : l.map f = l := by
  induction l with
  | nil => rfl
  | cons a t ih =>
    simp only [List.map_cons, h a (by simp)]
    rw [ih (fun x hx => h x (by simp [hx]))]

/-- C5: for every image of `N` bytes with `0 < N ≤ page size`, a successful
`load_user_app` leaves the physical page backing the mapping at the load
address holding exactly the `N` image bytes followed by zeros up to the page
boundary, and the address space has gained exactly one new mapping: an
executable, user-accessible (`READ|WRITE|EXECUTE|USER`) page at the fixed
load address `0x1000`. -/
theorem load_user_app_roundtrip (contents : List Nat) (N : Nat)
    (hlen : contents.length = N) (hpos : 0 < N) (hle : N ≤ PAGE_SIZE_4K)
    (us : AddrSpace)
    (hdisj : ∀ r ∈ us.regions,
      r.vaddr + r.size ≤ APP_ENTRY ∨ APP_ENTRY + PAGE_SIZE_4K ≤ r.vaddr) :
    load_user_app (some ⟨contents, false⟩) true true us =
      Except.ok { us with regions := us.regions ++
        [⟨APP_ENTRY, PAGE_SIZE_4K, MappingFlags.rwxu,
          contents ++ List.replicate (PAGE_SIZE_4K - N) 0⟩] } := by
  have hcont : ∀ r ∈ us.regions, r.containsB APP_ENTRY = false := by
    intro r hr
    rcases hdisj r hr with h | h <;>
      · simp only [MemRegion.containsB, APP_ENTRY, PAGE_SIZE_4K] at *
        simp only [Bool.and_eq_false_iff, decide_eq_false_iff_not]
        omega
  have hany : us.regions.any
      (fun r => r.overlapsB APP_ENTRY PAGE_SIZE_4K) = false := by
    rw [List.any_eq_false]
    intro r hr
    rcases hdisj r hr with h | h <;>
      · simp only [MemRegion.overlapsB, APP_ENTRY, PAGE_SIZE_4K] at *
        simp only [Bool.and_eq_true, decide_eq_true_iff, not_and]
        omega
  have hn : min contents.length (List.replicate PAGE_SIZE_4K (0 : Nat)).length
      = N := by
    simp only [List.length_replicate, hlen]
    omega
  simp only [load_user_app, load_file, hn]
  simp only [Bool.not_true, Bool.false_eq_true, if_false]
  simp only [AddrSpace.mapRegion, hany, Bool.not_true, Bool.false_eq_true,
    if_false]
  norm_num [PAGE_SIZE_4K]
  rw [← hlen, List.take_length]
  simp only [AddrSpace.writePhysAt, List.map_append, List.map_cons,
    List.map_nil]
  rw [map_id_of_mem us.regions _
    (fun r hr => by rw [hcont r hr]; simp)]
  have hlen4 : contents.length + (4096 - contents.length) = 4096 := by
    simp only [PAGE_SIZE_4K] at hle
    omega
  simp only [MemRegion.containsB, MemRegion.writeAt, APP_ENTRY]
  norm_num
  simp only [List.take_zero, List.nil_append, List.length_append,
    List.length_replicate, hlen4, List.drop_replicate, Nat.sub_self,
    List.replicate_zero, List.append_nil]

/-- Witness for C5 at a concrete input: loading the one-byte image `[7]`
into an empty address space installs one `READ|WRITE|EXECUTE|USER` page at
`0x1000` whose backing is the byte `7` followed by 4095 zeros. -/
theorem load_user_app_roundtrip_witness :
    load_user_app (some ⟨[7], false⟩) true true ⟨0, 0x4000000000, []⟩ =
      Except.ok ⟨0, 0x4000000000,
        [⟨APP_ENTRY, PAGE_SIZE_4K, MappingFlags.rwxu,
          [7] ++ List.replicate (PAGE_SIZE_4K - 1) 0⟩]⟩ :=
  load_user_app_roundtrip [7] 1 rfl (by decide) (by decide)
    ⟨0, 0x4000000000, []⟩ (by simp)

/-- C7: `load_user_app` fails with `NotFound` exactly when the path cannot
be opened; with the file open, a failing read surfaces as the propagated
I/O error, and a failure of the physical page allocation (`SharedPages::new`)
or of the mapping into the address space surfaces as `NoMemory`. -/
theorem load_user_app_error_classification (file : Option FileModel)
    (p m : Bool) (us : AddrSpace) (f : FileModel) :
    (load_user_app file p m us = Except.error AxError.NotFound ↔ file = none) ∧
    (f.readFails = true →
      load_user_app (some f) p m us = Except.error AxError.IoFailed) ∧
    (f.readFails = false →
      (p = false ∨
        us.mapRegion APP_ENTRY PAGE_SIZE_4K MappingFlags.rwxu
          (List.replicate PAGE_SIZE_4K 0) m = none) →
      load_user_app (some f) p m us = Except.error AxError.NoMemory) := by
  refine ⟨⟨?_, ?_⟩, ?_, ?_⟩
  · intro h
    cases file with
    | none => rfl
    | some g =>
      exfalso
      simp only [load_user_app, load_file] at h
      cases hf : g.readFails with
      | true => simp [hf] at h
      | false =>
        simp only [hf, Bool.false_eq_true, if_false] at h
        cases p with
        | false => simp at h
        | true =>
          simp only [Bool.not_true, Bool.false_eq_true, if_false] at h
          cases hm : us.mapRegion APP_ENTRY PAGE_SIZE_4K MappingFlags.rwxu
              (List.replicate PAGE_SIZE_4K 0) m with
          | none => rw [hm] at h; simp at h
          | some u2 => rw [hm] at h; simp at h
  · rintro rfl
    rfl
  · intro hf
    simp [load_user_app, load_file, hf]
  · intro hf hpm
    rcases hpm with hp | hm
    · simp [load_user_app, load_file, hf, hp]
    · cases p with
      | false => simp [load_user_app, load_file, hf]
      | true => simp [load_user_app, load_file, hf, hm]

/-- Witness for C7 at concrete inputs: an unopenable path yields `NotFound`;
a failing read on an opened file yields the propagated I/O error; a failed
page allocation yields `NoMemory`. -/
theorem load_user_app_error_classification_witness :
    load_user_app none true true ⟨0, 0x4000000000, []⟩ =
      Except.error AxError.NotFound ∧
    load_user_app (some ⟨[1], true⟩) true true ⟨0, 0x4000000000, []⟩ =
      Except.error AxError.IoFailed ∧
    load_user_app (some ⟨[1], false⟩) false true ⟨0, 0x4000000000, []⟩ =
      Except.error AxError.NoMemory :=
  ⟨(load_user_app_error_classification none true true ⟨0, 0x4000000000, []⟩
      ⟨[1], true⟩).1.mpr rfl,
   (load_user_app_error_classification (some ⟨[1], true⟩) true true
      ⟨0, 0x4000000000, []⟩ ⟨[1], true⟩).2.1 rfl,
   (load_user_app_error_classification (some ⟨[1], false⟩) false true
      ⟨0, 0x4000000000, []⟩ ⟨[1], false⟩).2.2 rfl (Or.inl rfl)⟩

/-- Inversion for a successful `map` (spec §4.1): the allocator said yes and
exactly the requested region was appended. -/
theorem mapRegion_ok_inversion (us : AddrSpace) (v s : Nat)
    (fl : MappingFlags) (b : List Nat) (ok : Bool) (us2 : AddrSpace)
    (h : us.mapRegion v s fl b ok = some us2) :
    ok = true ∧ us2.base = us.base ∧ us2.size = us.size ∧
    us2.regions = us.regions ++ [⟨v, s, fl, b⟩] := by
  simp only [AddrSpace.mapRegion] at h
  cases ok with
  | false => simp at h
  | true =>
    simp only [Bool.not_true, Bool.false_eq_true, if_false] at h
    split at h
    · simp at h
    · split at h
      · simp at h
      · rw [Option.some_inj] at h
        subst h
        exact ⟨rfl, rfl, rfl, rfl⟩

/-- Inversion for a successful `load_user_app`: the file was opened and read,
the page allocation and the mapping succeeded, and the virtual range of the
address space is unchanged. -/
theorem load_user_app_ok_inversion (file : Option FileModel) (p m : Bool)
    (us us2 : AddrSpace) (h : load_user_app file p m us = Except.ok us2) :
    (∃ f, file = some f ∧ f.readFails = false) ∧ p = true ∧ m = true ∧
    us2.base = us.base ∧ us2.size = us.size := by
  simp only [load_user_app] at h
  cases file with
  | none => simp [load_file] at h
  | some f =>
    cases hf : f.readFails with
    | true => simp [load_file, hf] at h
    | false =>
      simp only [load_file, hf, Bool.false_eq_true, if_false] at h
      cases p with
      | false => simp at h
      | true =>
        simp only [Bool.not_true, Bool.false_eq_true, if_false] at h
        cases hm : us.mapRegion APP_ENTRY PAGE_SIZE_4K MappingFlags.rwxu
            (List.replicate PAGE_SIZE_4K 0) m with
        | none => rw [hm] at h; simp at h
        | some u2 =>
          rw [hm] at h
          simp only [Except.ok.injEq] at h
          rcases mapRegion_ok_inversion us APP_ENTRY PAGE_SIZE_4K
            MappingFlags.rwxu (List.replicate PAGE_SIZE_4K 0) m u2 hm
            with ⟨hok, hb, hs, hr⟩
          subst h
          exact ⟨⟨f, rfl, hf⟩, rfl, hok, hb, hs⟩

/-- Inversion for a spawn sequence that reached `spawn_user_task`: every
fallible step succeeded, the final address space contains the 64 KiB
`READ|WRITE|USER` stack region ending at `uspace.end()`, and the initial
context is `UserContext::new(APP_ENTRY, ustack_top, 0)`. -/
theorem spawnSequence_spawned_inversion (o : SpawnOracle) (k : List MemRegion)
    (us : AddrSpace) (uctx : UserContext)
    (h : spawnSequence o k = SpawnOutcome.spawned us uctx) :
    o.newEmptyOk = true ∧ o.copyMappingsOk = true ∧
    (∃ f, o.file = some f ∧ f.readFails = false) ∧
    o.codePagesOk = true ∧ o.codeMapOk = true ∧
    o.stackPagesOk = true ∧ o.stackMapOk = true ∧
    (⟨0x4000000000 - USER_STACK_SIZE, USER_STACK_SIZE, MappingFlags.rwu,
      List.replicate USER_STACK_SIZE 0⟩ : MemRegion) ∈ us.regions ∧
    uctx = UserContext.new APP_ENTRY 0x4000000000 0 := by
  simp only [spawnSequence] at h
  cases hne : o.newEmptyOk with
  | false => rw [hne] at h; simp at h
  | true =>
  rw [hne] at h
  simp only [Bool.not_true, Bool.false_eq_true, if_false] at h
  cases hcm : o.copyMappingsOk with
  | false => rw [hcm] at h; simp at h
  | true =>
  rw [hcm] at h
  simp only [Bool.not_true, Bool.false_eq_true, if_false] at h
  cases hload : load_user_app o.file o.codePagesOk o.codeMapOk
      ⟨0, 0x4000000000, k⟩ with
  | error e => rw [hload] at h; simp at h
  | ok us2 =>
  rw [hload] at h
  simp only [] at h
  cases hsp : o.stackPagesOk with
  | false => rw [hsp] at h; simp at h
  | true =>
  rw [hsp] at h
  simp only [Bool.not_true, Bool.false_eq_true, if_false] at h
  cases hsm : us2.mapRegion (us2.vaEnd - USER_STACK_SIZE) USER_STACK_SIZE
      MappingFlags.rwu (List.replicate USER_STACK_SIZE 0) o.stackMapOk with
  | none => rw [hsm] at h; simp at h
  | some us3 =>
  rw [hsm] at h
  simp only [SpawnOutcome.spawned.injEq] at h
  obtain ⟨hus, hctx⟩ := h
  rcases load_user_app_ok_inversion o.file o.codePagesOk o.codeMapOk
      ⟨0, 0x4000000000, k⟩ us2 hload with ⟨⟨f, hf, hrf⟩, hp, hm, hb, hs⟩
  have hend : us2.vaEnd = 0x4000000000 := by
    simp only [AddrSpace.vaEnd, hb, hs]
  rcases mapRegion_ok_inversion us2 (us2.vaEnd - USER_STACK_SIZE)
      USER_STACK_SIZE MappingFlags.rwu (List.replicate USER_STACK_SIZE 0)
      o.stackMapOk us3 hsm with ⟨hok, hb3, hs3, hr3⟩
  subst hus
  refine ⟨rfl, rfl, ⟨f, hf, hrf⟩, hp, hm, rfl, hok, ?_, ?_⟩
  · rw [hr3, hend]
    simp
  · rw [← hctx, hend]

/-- A fully successful spawn over the one-byte image `[7]` and an empty set
of kernel mappings, computed to its exact outcome. -/
theorem spawnSequence_ok_concrete :
    spawnSequence ⟨true, true, some ⟨[7], false⟩, true, true, true, true⟩ [] =
      SpawnOutcome.spawned
        ⟨0, 0x4000000000,
          [⟨0x1000, 0x1000, MappingFlags.rwxu, 7 :: List.replicate 4095 0⟩,
           ⟨0x3FFFFF0000, 0x10000, MappingFlags.rwu,
             List.replicate 0x10000 0⟩]⟩
        (UserContext.new 0x1000 0x4000000000 0) := by
  have hload : load_user_app (some ⟨[7], false⟩) true true
      (⟨0, 0x4000000000, []⟩ : AddrSpace) =
      Except.ok ⟨0, 0x4000000000,
        [⟨0x1000, 0x1000, MappingFlags.rwxu, 7 :: List.replicate 4095 0⟩]⟩ := by
    simp only [load_user_app, load_file]
    norm_num [PAGE_SIZE_4K, AddrSpace.mapRegion, APP_ENTRY,
      AddrSpace.writePhysAt, MemRegion.containsB, MemRegion.writeAt,
      MappingFlags.rwxu]
  simp only [spawnSequence, Bool.not_true, Bool.false_eq_true, if_false]
  rw [hload]
  norm_num [AddrSpace.vaEnd, USER_STACK_SIZE, AddrSpace.mapRegion,
    MemRegion.overlapsB, PAGE_SIZE_4K, MappingFlags.rwu, APP_ENTRY]

/-- C8: whenever the spawn sequence reaches `spawn_user_task`, the address
space contains a 64 KiB stack region at the top of the process's virtual
range (`[end - 0x10000, end)`) with `READ|WRITE|USER` permissions backed by
freshly allocated zeroed pages, and the initial user context has program
counter = the fixed entry address, stack pointer = the top of the mapped
stack region, and first argument register = 0 (all other registers zero). -/
theorem spawn_maps_stack_and_initial_context (o : SpawnOracle)
    (k : List MemRegion) (us : AddrSpace) (uctx : UserContext)
    (h : spawnSequence o k = SpawnOutcome.spawned us uctx) :
    (⟨0x4000000000 - USER_STACK_SIZE, USER_STACK_SIZE, MappingFlags.rwu,
      List.replicate USER_STACK_SIZE 0⟩ : MemRegion) ∈ us.regions ∧
    uctx = UserContext.new APP_ENTRY 0x4000000000 0 ∧
    uctx.sepc = APP_ENTRY ∧
    uctx.regs.sp = 0x4000000000 ∧
    uctx.regs.a0 = 0 := by
  rcases spawnSequence_spawned_inversion o k us uctx h with
    ⟨_, _, _, _, _, _, _, hmem, hctx⟩
  subst hctx
  exact ⟨hmem, rfl, rfl, rfl, rfl⟩

/-- Witness for C8 at a concrete input: the fully successful spawn of the
one-byte image `[7]` maps the stack `[0x3FFFFF0000, 0x4000000000)` with
`READ|WRITE|USER` zeroed backing and starts the context at
`pc = 0x1000, sp = 0x4000000000, a0 = 0`. -/
theorem spawn_maps_stack_and_initial_context_witness :
    (⟨0x4000000000 - USER_STACK_SIZE, USER_STACK_SIZE, MappingFlags.rwu,
      List.replicate USER_STACK_SIZE 0⟩ : MemRegion) ∈
      (⟨0, 0x4000000000,
        [⟨0x1000, 0x1000, MappingFlags.rwxu, 7 :: List.replicate 4095 0⟩,
         ⟨0x3FFFFF0000, 0x10000, MappingFlags.rwu,
           List.replicate 0x10000 0⟩]⟩ : AddrSpace).regions ∧
    UserContext.new 0x1000 0x4000000000 0 =
      UserContext.new APP_ENTRY 0x4000000000 0 ∧
    (UserContext.new 0x1000 0x4000000000 0).sepc = APP_ENTRY ∧
    (UserContext.new 0x1000 0x4000000000 0).regs.sp = 0x4000000000 ∧
    (UserContext.new 0x1000 0x4000000000 0).regs.a0 = 0 :=
  spawn_maps_stack_and_initial_context
    ⟨true, true, some ⟨[7], false⟩, true, true, true, true⟩ [] _ _
    spawnSequence_ok_concrete

/-- C2 counterexample: when a spawn step fails (here: the payload file cannot
be opened), the spawn sequence of `main.rs` does not surface the error to a
caller — it escalates to a kernel panic (`panic!("Cannot load app! ..")`),
refuting the claim that spawn-setup errors are surfaced to the spawn caller
rather than escalated. -/
theorem spawn_error_escalates_to_panic :
    spawnSequence ⟨true, true, none, true, true, true, true⟩ [] =
      SpawnOutcome.panicked (PanicCause.loadFailed AxError.NotFound) := rfl

/-- C2 (amended): if any step of the spawn sequence fails, the whole spawn
fails before `spawn_user_task` — no partial process is left runnable — but
the failure is raised as a kernel panic (`unwrap`/`panic!`) carrying the
failing step's error, not returned to the spawn caller. -/
theorem spawn_failure_panics (o : SpawnOracle) (k : List MemRegion)
    (hfail : (o.newEmptyOk && o.copyMappingsOk &&
        (match o.file with
          | none => false
          | some f => !f.readFails) &&
        o.codePagesOk && o.codeMapOk && o.stackPagesOk &&
        o.stackMapOk) = false) :
    (∃ c, spawnSequence o k = SpawnOutcome.panicked c) ∧
    ∀ us uctx, spawnSequence o k ≠ SpawnOutcome.spawned us uctx := by
  have hnospawn : ∀ us uctx,
      spawnSequence o k ≠ SpawnOutcome.spawned us uctx := by
    intro us uctx hcon
    rcases spawnSequence_spawned_inversion o k us uctx hcon with
      ⟨h1, h2, ⟨f, hf, hrf⟩, h4, h5, h6, h7, _, _⟩
    rw [h1, h2, hf, h4, h5, h6, h7] at hfail
    simp [hrf] at hfail
  refine ⟨?_, hnospawn⟩
  cases hres : spawnSequence o k with
  | panicked c => exact ⟨c, rfl⟩
  | spawned us uctx => exact absurd hres (hnospawn us uctx)

/-- Witness for C2 (amended) at a concrete input: with an unopenable payload
path and a failing stack allocation, the spawn sequence panics with the
first failing step's error and spawns nothing. -/
theorem spawn_failure_panics_witness :
    spawnSequence ⟨true, true, none, true, true, false, true⟩ [] =
      SpawnOutcome.panicked (PanicCause.loadFailed AxError.NotFound) ∧
    spawnSequence ⟨true, true, none, true, true, false, true⟩ [] ≠
      SpawnOutcome.spawned ⟨0, 0, []⟩ (UserContext.new 0 0 0) :=
  ⟨rfl, (spawn_failure_panics ⟨true, true, none, true, true, false, true⟩ []
      (by decide)).2 ⟨0, 0, []⟩ (UserContext.new 0 0 0)⟩
